import Mathlib

/-!
Shallow embedding of the message-routing and flow-tracking substrate of the
`retrievio` repository: `src/messaging/queue.py` (class `AsyncMessageQueue`
with dataclass `AsyncMessage`), `src/agents/communication.py` (class
`AgentCommunication` with dataclass `Message`) and `src/flow/coordinator.py`
(class `FlowCoordinator`).

Python dictionaries are modelled as association lists (`List (String × α)`)
preserving insertion order; `defaultdict` creation, `dict.get` defaults and
the aliasing of `list.append` on a list fetched from a dictionary are
modelled explicitly, exactly as the source behaves.  Mailboxes
(`asyncio.Queue`) are FIFO lists with the head as the oldest element.
Timeouts (`Optional[float]`) are modelled as `Option ℚ`; Python truthiness
of the timeout (`if timeout:`) is `pyTruthy`.
-/

set_option autoImplicit false

namespace Retrievio

/-- Lookup in a Python dict modelled as an association list:
first entry with the given key. -/
def alookup {α : Type} : List (String × α) → String → Option α
  | [], _ => none
  | (k', v') :: rest, k => if k' = k then some v' else alookup rest k

/-- `d[k] = v` on a Python dict: replace the value at an existing key,
otherwise append the new entry at the end (insertion order). -/
def aset {α : Type} : List (String × α) → String → α → List (String × α)
  | [], k, v => [(k, v)]
  | (k', v') :: rest, k, v =>
      if k' = k then (k, v) :: rest else (k', v') :: aset rest k v

/-- `k in d` on a Python dict. -/
def hasKey {α : Type} (d : List (String × α)) (k : String) : Bool :=
  (alookup d k).isSome

/-- `src/messaging/queue.py` dataclass `AsyncMessage`.
`content: Any` is an opaque payload, modelled as a string. -/
structure AsyncMessage where
  id : String
  sender : String
  receiver : String
  content : String
  message_type : String := "data"
  metadata : Option (List (String × String)) := none
  deriving DecidableEq, Repr

/-- State of `AsyncMessageQueue`: `self.queues` (agent id → FIFO mailbox,
head oldest) and `self.subscribers` (publisher → list of subscribers),
both `defaultdict`s, plus the `_running` flag. -/
structure QueueState where
  queues : List (String × List AsyncMessage)
  subscribers : List (String × List String)
  running : Bool := true
  deriving DecidableEq, Repr

/-- `AsyncMessageQueue.register_agent`: create an empty mailbox unless the
agent already has one. -/
def register_agent (st : QueueState) (agent_id : String) : QueueState :=
  if hasKey st.queues agent_id then st
  else { st with queues := st.queues ++ [(agent_id, [])] }

/-- `AsyncMessageQueue.subscribe`: `self.subscribers[publisher]` on the
`defaultdict` creates the key if absent; the subscriber is appended only
if not already present. -/
def subscribe (st : QueueState) (subscriber publisher : String) : QueueState :=
  let cur := (alookup st.subscribers publisher).getD []
  if subscriber ∈ cur then
    { st with subscribers := aset st.subscribers publisher cur }
  else
    { st with subscribers := aset st.subscribers publisher (cur ++ [subscriber]) }

/-- The `receivers` list built by `AsyncMessageQueue.publish`:
`self.subscribers.get(message.sender, [])`, then
`receivers.append(message.receiver)` when the receiver string is truthy. -/
def resolvedReceivers (st : QueueState) (m : AsyncMessage) : List String :=
  let base := (alookup st.subscribers m.sender).getD []
  if m.receiver ≠ "" then base ++ [m.receiver] else base

/-- The delivery loop of `publish`: for each receiver, if it has a mailbox
(`receiver in self.queues`), append the message to the tail of that mailbox;
otherwise skip it silently. -/
def deliverAll (qs : List (String × List AsyncMessage)) (rs : List String)
    (m : AsyncMessage) : List (String × List AsyncMessage) :=
  rs.foldl (fun qs r =>
    match alookup qs r with
    | some box => aset qs r (box ++ [m])
    | none => qs) qs

/-- `AsyncMessageQueue.publish`.  `self.subscribers.get(message.sender, [])`
returns the stored list object itself when the key is present, so the
subsequent `receivers.append(message.receiver)` mutates the stored
subscriber list; when the key is absent it returns a fresh list and the
table is untouched.  The enqueue of a message on an unbounded
`asyncio.Queue` cannot fail, so the `except` branch returning `False` is
unreachable and the function returns `True`. -/
def publish (st : QueueState) (m : AsyncMessage) : QueueState × Bool :=
  let receivers := resolvedReceivers st m
  let subscribers' :=
    if hasKey st.subscribers m.sender ∧ m.receiver ≠ "" then
      aset st.subscribers m.sender receivers
    else st.subscribers
  let queues' := deliverAll st.queues receivers m
  ({ st with queues := queues', subscribers := subscribers' }, true)

/-- Python truthiness of an `Optional[float]` timeout: `None` and `0` are
falsy, every other number is truthy. -/
def pyTruthy : Option ℚ → Bool
  | none => false
  | some q => decide (q ≠ 0)

/-- Outcome of `AsyncMessageQueue.get_message`: either the call suspends
with no defined return (empty mailbox, falsy timeout), or it returns an
`Optional[AsyncMessage]` together with the post-state. -/
inductive GetResult where
  | blocked
  | result (msg : Option AsyncMessage) (st : QueueState)
  deriving DecidableEq, Repr

/-- `AsyncMessageQueue.get_message`: `None` for an unregistered agent; the
oldest message (removed) when one is pending; on an empty mailbox, a truthy
timeout yields `None` once the timeout elapses (the `TimeoutError` is
caught), a falsy timeout (`None` or `0`) awaits `queue.get()` and blocks. -/
def get_message (st : QueueState) (agent_id : String) (timeout : Option ℚ) :
    GetResult :=
  match alookup st.queues agent_id with
  | none => .result none st
  | some [] =>
      if pyTruthy timeout then .result none st else .blocked
  | some (msg :: rest) =>
      .result (some msg) { st with queues := aset st.queues agent_id rest }

/-- The `while not self.queues[agent_id].empty()` loop of
`get_all_messages`: repeatedly pop the head and collect it. -/
def drainLoop : List AsyncMessage → List AsyncMessage
  | [] => []
  | msg :: rest => msg :: drainLoop rest

/-- `AsyncMessageQueue.get_all_messages`: `self.queues[agent_id]` on the
`defaultdict` creates an empty mailbox for an unknown agent; then the loop
drains the mailbox in FIFO order. -/
def get_all_messages (st : QueueState) (agent_id : String) :
    List AsyncMessage × QueueState :=
  match alookup st.queues agent_id with
  | none => ([], { st with queues := st.queues ++ [(agent_id, [])] })
  | some box => (drainLoop box, { st with queues := aset st.queues agent_id [] })

/-- `src/agents/communication.py` dataclass `Message` (the synchronous
path's message type).  `content: Any` is again an opaque payload. -/
structure Message where
  sender : String
  receiver : String
  content : String
  message_type : String := "data"
  metadata : Option (List (String × String)) := none
  deriving DecidableEq, Repr

/-- The field names of the `AsyncMessage` dataclass, in declaration order. -/
def asyncMessageFields : List String :=
  ["id", "sender", "receiver", "content", "message_type", "metadata"]

/-- The field names of the `Message` dataclass, in declaration order. -/
def messageFields : List String :=
  ["sender", "receiver", "content", "message_type", "metadata"]

/-- Project an `AsyncMessage` onto the synchronous `Message` shape: every
`Message` field is read from the same-named `AsyncMessage` field. -/
def asyncToMessage (am : AsyncMessage) : Message :=
  { sender := am.sender, receiver := am.receiver, content := am.content,
    message_type := am.message_type, metadata := am.metadata }

/-- Build an `AsyncMessage` from a synchronous `Message` plus the `id` that
`Message` lacks; the shared fields carry over by name. -/
def messageToAsync (i : String) (msg : Message) : AsyncMessage :=
  { id := i, sender := msg.sender, receiver := msg.receiver,
    content := msg.content, message_type := msg.message_type,
    metadata := msg.metadata }

/-- `src/flow/coordinator.py`: the per-flow record created by `start_flow`
(keys "status", "document", "steps_completed", "current_step"). -/
structure Flow where
  status : String
  document : String
  steps_completed : List String
  current_step : String
  deriving DecidableEq, Repr

/-- State of `FlowCoordinator`: `self.active_flows` (flow id → flow dict). -/
structure FlowCoordinator where
  active_flows : List (String × Flow)
  deriving DecidableEq, Repr

/-- `FlowCoordinator.start_flow`: unconditionally assigns
`self.active_flows[flow_id]` a fresh record, overwriting any existing one. -/
def start_flow (c : FlowCoordinator) (flow_id document_path : String) :
    FlowCoordinator :=
  let f : Flow :=
    { status := "started", document := document_path,
      steps_completed := [], current_step := "parsing" }
  { c with active_flows := aset c.active_flows flow_id f }

/-- `FlowCoordinator.update_flow`: only when the flow exists, set its status
and append the step to `steps_completed`; otherwise do nothing. -/
def update_flow (c : FlowCoordinator) (flow_id status step : String) :
    FlowCoordinator :=
  match alookup c.active_flows flow_id with
  | some f =>
      let f2 : Flow :=
        { f with status := status,
                 steps_completed := f.steps_completed ++ [step] }
      { c with active_flows := aset c.active_flows flow_id f2 }
  | none => c

/-- `FlowCoordinator.get_flow_status`: `self.active_flows.get(flow_id, {})`;
the empty-dict default for an unknown id is modelled as `none`. -/
def get_flow_status (c : FlowCoordinator) (flow_id : String) : Option Flow :=
  alookup c.active_flows flow_id

/-- A concrete flow record used in examples: `"f1"` after completing the
`"parsing"` step. -/
def flowParsed : Flow :=
  { status := "parsed", document := "doc.pdf", steps_completed := ["parsing"], current_step := "parsing" }

/-- A concrete coordinator used in examples: it holds only `flowParsed`. -/
def coordParsed : FlowCoordinator :=
  { active_flows := [("f1", flowParsed)] }

/-- A concrete flow record used in examples: `"f1"` freshly started. -/
def flowStarted : Flow :=
  { status := "started", document := "d", steps_completed := [], current_step := "parsing" }

/-- A concrete coordinator used in examples: it holds only `flowStarted`. -/
def coordStarted : FlowCoordinator :=
  { active_flows := [("f1", flowStarted)] }

/-! Basic lemmas about the dictionary model. -/

lemma alookup_aset_self {α : Type} (d : List (String × α)) (k : String) (v : α) :
    alookup (aset d k v) k = some v := by
  induction d with
  | nil => simp [aset, alookup]
  | cons p rest ih =>
      obtain ⟨k', v'⟩ := p
      by_cases h : k' = k <;> simp [aset, alookup, h, ih]

lemma alookup_aset_ne {α : Type} (d : List (String × α)) (k k' : String) (v : α)
    (h : k ≠ k') : alookup (aset d k v) k' = alookup d k' := by
  induction d with
  | nil => simp [aset, alookup, h]
  | cons p rest ih =>
      obtain ⟨k'', v''⟩ := p
      by_cases h2 : k'' = k
      · subst h2
        simp [aset, alookup, h]
      · by_cases h3 : k'' = k' <;> simp [aset, alookup, h2, h3, ih, Ne.symm h]

lemma drainLoop_eq (box : List AsyncMessage) : drainLoop box = box := by
  induction box with
  | nil => rfl
  | cons m rest ih => simp [drainLoop, ih]

lemma get_all_messages_empty (st : QueueState) (a : String)
    (h : alookup st.queues a = some []) : (get_all_messages st a).1 = [] := by
  unfold get_all_messages
  rw [h]
  rfl

/-- Effect of the delivery loop on one mailbox: a registered agent's mailbox
gains one copy of the message per occurrence of the agent in the receivers
list; an unregistered agent stays unregistered. -/
lemma deliverAll_lookup (rs : List String)
    (qs : List (String × List AsyncMessage)) (r : String) (m : AsyncMessage) :
    alookup (deliverAll qs rs m) r
      = (alookup qs r).map (fun box => box ++ List.replicate (rs.count r) m) := by
  induction rs generalizing qs with
  | nil =>
      cases h : alookup qs r <;> simp [deliverAll, h]
  | cons r' rs ih =>
      have hstep : deliverAll qs (r' :: rs) m
          = deliverAll (match alookup qs r' with
              | some box => aset qs r' (box ++ [m])
              | none => qs) rs m := rfl
      rw [hstep]
      by_cases hr : r' = r
      · subst hr
        cases h : alookup qs r' with
        | none => simp [h, ih, List.count_cons]
        | some box =>
            rw [ih]
            simp [h, alookup_aset_self, List.count_cons, List.replicate_succ]
      · cases h : alookup qs r' with
        | none => simp [h, ih, List.count_cons, hr]
        | some box =>
            rw [ih]
            rw [alookup_aset_ne _ _ _ _ hr]
            simp [List.count_cons, hr, Ne.symm hr]

/-! Claim C1: duplicate resolved targets. -/

/-- C1, counterexample: sender `"S"` has subscriber `"R"`, and a message is
published with explicit receiver `"R"`; `"R"`'s mailbox then holds TWO
copies of the message, refuting the claim that resolved targets are
deduplicated so that such a receiver gets exactly one copy. -/
theorem C1_counterexample :
    alookup (publish
        { queues := [("S", []), ("R", [])], subscribers := [("S", ["R"])] }
        { id := "m1", sender := "S", receiver := "R", content := "c" }).1.queues
      "R"
      = some [{ id := "m1", sender := "S", receiver := "R", content := "c" },
              { id := "m1", sender := "S", receiver := "R", content := "c" }] := by
  rfl

/-- C1, amended: `publish` does not deduplicate.  Whenever the explicit
receiver is non-empty, registered, and also occurs in the sender's
subscriber list, the receiver's mailbox receives at least two copies of the
message (one per occurrence in the resolved receivers list). -/
theorem C1_duplicate_receiver_gets_two_copies (st : QueueState)
    (m : AsyncMessage) (box : List AsyncMessage)
    (hrecv : m.receiver ≠ "")
    (hsub : m.receiver ∈ (alookup st.subscribers m.sender).getD [])
    (hreg : alookup st.queues m.receiver = some box) :
    ∃ k, 2 ≤ k ∧
      alookup (publish st m).1.queues m.receiver
        = some (box ++ List.replicate k m) := by
  refine ⟨(resolvedReceivers st m).count m.receiver, ?_, ?_⟩
  · unfold resolvedReceivers
    have hpos :
        0 < ((alookup st.subscribers m.sender).getD []).count m.receiver :=
      List.count_pos_iff.mpr hsub
    simp only [hrecv, if_pos, ne_eq, not_false_iff, if_true,
      List.count_append, List.count_singleton, beq_self_eq_true]
    omega
  · show alookup (deliverAll st.queues (resolvedReceivers st m) m) m.receiver
        = _
    rw [deliverAll_lookup, hreg]
    rfl

/-- C1 witness: the amended theorem applied at the counterexample state. -/
theorem C1_witness :
    ∃ k, 2 ≤ k ∧
      alookup (publish
          { queues := [("S", []), ("R", [])], subscribers := [("S", ["R"])] }
          { id := "m1", sender := "S", receiver := "R", content := "c" }).1.queues
        "R"
        = some ([] ++ List.replicate k
            { id := "m1", sender := "S", receiver := "R", content := "c",
              message_type := "data", metadata := none }) :=
  C1_duplicate_receiver_gets_two_copies
    { queues := [("S", []), ("R", [])], subscribers := [("S", ["R"])] }
    { id := "m1", sender := "S", receiver := "R", content := "c" }
    [] (by decide) (by decide) (by decide)

/-! Claim C2: publish mutates the stored subscriber list. -/

/-- C2: because `publish` fetches the sender's subscriber list with
`dict.get` and then `append`s the explicit receiver to the returned list
object, a sender with at least one subscriber has its STORED subscriber
list extended by the explicit receiver as a side effect of `publish`; the
subscription table does not stay unchanged, and every later publish from
that sender delivers at least one copy to that past receiver (when the
receiver is registered at that point). -/
theorem C2_publish_mutates_subscribers (st : QueueState) (m : AsyncMessage)
    (base : List String)
    (hsub : alookup st.subscribers m.sender = some base)
    (_hne : base ≠ [])
    (hrecv : m.receiver ≠ "") :
    alookup (publish st m).1.subscribers m.sender = some (base ++ [m.receiver])
    ∧ (publish st m).1.subscribers ≠ st.subscribers
    ∧ ∀ (m2 : AsyncMessage) (box2 : List AsyncMessage), m2.sender = m.sender →
        alookup (publish st m).1.queues m.receiver = some box2 →
        ∃ k, 1 ≤ k ∧
          alookup (publish (publish st m).1 m2).1.queues m.receiver
            = some (box2 ++ List.replicate k m2) := by
  have hkey : hasKey st.subscribers m.sender = true := by
    simp [hasKey, hsub]
  have hres : resolvedReceivers st m = base ++ [m.receiver] := by
    simp [resolvedReceivers, hsub, hrecv]
  have hsubs : (publish st m).1.subscribers
      = aset st.subscribers m.sender (base ++ [m.receiver]) := by
    simp [publish, hkey, hrecv, hres]
  refine ⟨?_, ?_, ?_⟩
  · rw [hsubs, alookup_aset_self]
  · intro heq
    have h2 := congrArg (fun d => alookup d m.sender) heq
    simp only [hsubs, alookup_aset_self, hsub, Option.some.injEq] at h2
    have := congrArg List.length h2
    simp at this
  · intro m2 box2 hsender hbox2
    have hmem : m.receiver ∈ resolvedReceivers (publish st m).1 m2 := by
      unfold resolvedReceivers
      rw [hsender, hsubs, alookup_aset_self]
      by_cases h2 : m2.receiver = "" <;> simp [h2]
    refine ⟨(resolvedReceivers (publish st m).1 m2).count m.receiver,
      List.count_pos_iff.mpr hmem, ?_⟩
    show alookup (deliverAll (publish st m).1.queues
        (resolvedReceivers (publish st m).1 m2) m2) m.receiver = _
    rw [deliverAll_lookup, hbox2]
    rfl

/-- C2 witness: publishing from `"S"` (whose stored subscriber list is
`["X"]`) with explicit receiver `"R"` leaves the stored list `["X", "R"]`. -/
theorem C2_witness :
    alookup (publish
        { queues := [("S", []), ("X", []), ("R", [])],
          subscribers := [("S", ["X"])] }
        { id := "m1", sender := "S", receiver := "R", content := "c" }).1.subscribers
      "S" = some (["X"] ++ ["R"]) :=
  (C2_publish_mutates_subscribers
    { queues := [("S", []), ("X", []), ("R", [])],
      subscribers := [("S", ["X"])] }
    { id := "m1", sender := "S", receiver := "R", content := "c" }
    ["X"] (by decide) (by decide) (by decide)).1

/-! Claim C3: the return value of publish. -/

/-- C3, counterexample: nobody is registered and a message names the
unregistered receiver `"ghost"`.  The resolved target list is nonempty and
no delivery succeeds (the mailbox map is unchanged — in fact empty), yet
`publish` returns `true`, refuting the claim that it returns `false` when
resolved targets existed but none of the deliveries succeeded. -/
theorem C3_counterexample :
    resolvedReceivers { queues := [], subscribers := [] }
        { id := "g1", sender := "P", receiver := "ghost", content := "c" }
      = ["ghost"]
    ∧ publish { queues := [], subscribers := [] }
        { id := "g1", sender := "P", receiver := "ghost", content := "c" }
      = ({ queues := [], subscribers := [] }, true) := by
  exact ⟨rfl, rfl⟩

/-- C3, amended: `publish` returns `true` unconditionally — enqueueing on
an unbounded mailbox cannot fail, so the `except` branch returning `false`
is unreachable, and a publish whose resolved targets were all skipped as
unregistered still reports success. -/
theorem C3_publish_always_true (st : QueueState) (m : AsyncMessage) :
    (publish st m).2 = true := rfl

/-! Claim C4: delivery to an unregistered receiver. -/

/-- C4, counterexample: publishing to the never-registered receiver
`"nobody"` neither fails nor signals an `UnknownAgent` error: the call
returns the unchanged state and `true`, i.e. the target is silently
skipped, refuting the claim that such a delivery fails with `UnknownAgent`. -/
theorem C4_counterexample :
    publish { queues := [("A", [])], subscribers := [] }
        { id := "m2", sender := "P", receiver := "nobody", content := "c" }
      = ({ queues := [("A", [])], subscribers := [] }, true) := by
  rfl

/-- C4, amended: an unregistered explicit receiver is silently skipped by
the delivery loop (it stays unregistered and gets no mailbox), while a
registered explicit receiver has the message appended at the tail of its
mailbox (at least once; more than once if it is also a subscriber). -/
theorem C4_unregistered_skipped_registered_appended (st : QueueState)
    (m : AsyncMessage) (hrecv : m.receiver ≠ "") :
    (alookup st.queues m.receiver = none →
      alookup (publish st m).1.queues m.receiver = none)
    ∧ (∀ box, alookup st.queues m.receiver = some box →
        ∃ k, 1 ≤ k ∧
          alookup (publish st m).1.queues m.receiver
            = some (box ++ List.replicate k m)) := by
  constructor
  · intro hnone
    show alookup (deliverAll st.queues (resolvedReceivers st m) m) m.receiver
        = none
    rw [deliverAll_lookup, hnone]
    rfl
  · intro box hbox
    have hmem : m.receiver ∈ resolvedReceivers st m := by
      unfold resolvedReceivers
      simp [hrecv]
    refine ⟨(resolvedReceivers st m).count m.receiver,
      List.count_pos_iff.mpr hmem, ?_⟩
    show alookup (deliverAll st.queues (resolvedReceivers st m) m) m.receiver
        = _
    rw [deliverAll_lookup, hbox]
    rfl

/-- C4 witness: the amended theorem applied with registered receiver `"B"`
and, separately, the unregistered-receiver clause at receiver `"B"` absent
from the mailbox map. -/
theorem C4_witness :
    (alookup (publish { queues := [], subscribers := [] }
        { id := "m3", sender := "P", receiver := "B", content := "c" }).1.queues
      "B" = none)
    ∧ ∃ k, 1 ≤ k ∧
        alookup (publish { queues := [("B", [])], subscribers := [] }
            { id := "m3", sender := "P", receiver := "B", content := "c" }).1.queues
          "B"
          = some ([] ++ List.replicate k
              { id := "m3", sender := "P", receiver := "B", content := "c",
                message_type := "data", metadata := none }) :=
  ⟨(C4_unregistered_skipped_registered_appended
      { queues := [], subscribers := [] }
      { id := "m3", sender := "P", receiver := "B", content := "c" }
      (by decide)).1 (by decide),
   (C4_unregistered_skipped_registered_appended
      { queues := [("B", [])], subscribers := [] }
      { id := "m3", sender := "P", receiver := "B", content := "c" }
      (by decide)).2 [] (by decide)⟩

/-! Claim C5: steps_completed only grows. -/

/-- C5, counterexample: after `start_flow "f1"`, `update_flow` completes
step `"parsing"`; calling `start_flow "f1"` again (an operation of the
Flow Coordinator) overwrites the flow and resets `steps_completed` to `[]`,
removing the previously completed step — refuting the claim that no
coordinator operation ever removes completed steps of an existing flow. -/
theorem C5_counterexample :
    get_flow_status
        (update_flow (start_flow { active_flows := [] } "f1" "doc.pdf")
          "f1" "parsed" "parsing") "f1"
      = some { status := "parsed", document := "doc.pdf",
               steps_completed := ["parsing"], current_step := "parsing" }
    ∧ get_flow_status
        (start_flow
          (update_flow (start_flow { active_flows := [] } "f1" "doc.pdf")
            "f1" "parsed" "parsing") "f1" "doc.pdf") "f1"
      = some { status := "started", document := "doc.pdf",
               steps_completed := [], current_step := "parsing" } := by
  exact ⟨rfl, rfl⟩

/-- C5, amended: `update_flow` never removes or reorders completed steps —
for every existing flow, its old `steps_completed` is a prefix of its
`steps_completed` after any `update_flow` (and `get_flow_status` is a pure
read) — but `start_flow` on an existing id overwrites the flow, resetting
`steps_completed` to the empty list. -/
theorem C5_update_flow_steps_monotone (c : FlowCoordinator)
    (fid status step fid' doc : String) (f : Flow)
    (h : alookup c.active_flows fid' = some f) :
    (∃ f2, alookup (update_flow c fid status step).active_flows fid' = some f2
        ∧ f.steps_completed <+: f2.steps_completed)
    ∧ alookup (start_flow c fid' doc).active_flows fid'
        = some { status := "started", document := doc,
                 steps_completed := [], current_step := "parsing" } := by
  constructor
  · unfold update_flow
    cases hfid : alookup c.active_flows fid with
    | none => exact ⟨f, h, List.prefix_refl _⟩
    | some g =>
        by_cases heq : fid = fid'
        · subst heq
          rw [h] at hfid
          cases hfid
          refine ⟨_, alookup_aset_self _ _ _, ?_⟩
          exact List.prefix_append _ _
        · refine ⟨f, ?_, List.prefix_refl _⟩
          rw [alookup_aset_ne _ _ _ _ heq]
          exact h
  · unfold start_flow
    exact alookup_aset_self _ _ _

/-- C5 witness: the amended theorem applied to a coordinator holding flow
`"f1"` with one completed step. -/
theorem C5_witness :
    (∃ f2, alookup (update_flow coordParsed
        "f1" "chunked" "chunking").active_flows "f1" = some f2
      ∧ ["parsing"] <+: f2.steps_completed)
    ∧ alookup (start_flow coordParsed "f1" "doc2.pdf").active_flows "f1"
      = some { status := "started", document := "doc2.pdf",
               steps_completed := [], current_step := "parsing" } :=
  C5_update_flow_steps_monotone coordParsed
    "f1" "chunked" "chunking" "f1" "doc2.pdf" flowParsed (by decide)

/-! Claim C8: update_flow on a missing id. -/

/-- C8: `update_flow` on a flow id absent from the coordinator is silently
ignored — the coordinator is returned unchanged (so nothing is raised and
nothing else is touched) and the flow is still not created. -/
theorem C8_update_missing_ignored (c : FlowCoordinator)
    (fid status step : String)
    (h : alookup c.active_flows fid = none) :
    update_flow c fid status step = c
    ∧ alookup (update_flow c fid status step).active_flows fid = none := by
  have h1 : update_flow c fid status step = c := by
    unfold update_flow
    rw [h]
  exact ⟨h1, by rw [h1]; exact h⟩

/-- C8 witness: updating `"missing-id"` on a coordinator that only knows
`"f1"` changes nothing. -/
theorem C8_witness :
    update_flow coordStarted "missing-id" "parsed" "parsing" = coordStarted
    ∧ alookup (update_flow coordStarted
        "missing-id" "parsed" "parsing").active_flows "missing-id" = none :=
  C8_update_missing_ignored coordStarted "missing-id" "parsed" "parsing"
    (by decide)

/-! Claim C6: get_message with a timeout. -/

/-- C6, counterexample: `0` is a finite timeout, yet `get_message` on the
registered agent `"A"` with an empty mailbox and `timeout = 0` blocks
(Python's `if timeout:` treats `0` as absent), instead of returning a
not-found result on timeout as the claim states for every finite timeout. -/
theorem C6_counterexample :
    alookup (QueueState.mk [("A", [])] [] true).queues "A" = some []
    ∧ get_message (QueueState.mk [("A", [])] [] true) "A" (some 0)
        = GetResult.blocked := by
  exact ⟨rfl, rfl⟩

/-- C6, amended: for a registered agent, `get_message` returns the oldest
pending message (removing it from the mailbox) whenever one is available;
on an empty mailbox it returns a not-found result (never raising — every
exception is caught) when the timeout is truthy (finite and nonzero), and
blocks when the timeout is absent or zero. -/
theorem C6_get_message_spec (st : QueueState) (a : String) (t : Option ℚ)
    (box : List AsyncMessage)
    (hreg : alookup st.queues a = some box) :
    (∀ msg rest, box = msg :: rest →
        get_message st a t
          = GetResult.result (some msg)
              { st with queues := aset st.queues a rest })
    ∧ (box = [] → pyTruthy t = true →
        get_message st a t = GetResult.result none st)
    ∧ (box = [] → pyTruthy t = false →
        get_message st a t = GetResult.blocked) := by
  refine ⟨?_, ?_, ?_⟩
  · intro msg rest hbox
    subst hbox
    unfold get_message
    rw [hreg]
  · intro hbox ht
    subst hbox
    unfold get_message
    rw [hreg]
    simp [ht]
  · intro hbox ht
    subst hbox
    unfold get_message
    rw [hreg]
    simp [ht]

/-- C6 witness: agent `"A"` with one pending message and timeout `2`
receives the oldest message with the mailbox emptied; with an empty mailbox
and timeout `2` it gets the not-found result. -/
theorem C6_witness :
    get_message
        (QueueState.mk
          [("A", [AsyncMessage.mk "m1" "S" "A" "c" "data" none])] [] true)
        "A" (some 2)
      = GetResult.result (some (AsyncMessage.mk "m1" "S" "A" "c" "data" none))
          (QueueState.mk [("A", [])] [] true)
    ∧ get_message (QueueState.mk [("B", [])] [] true) "B" (some 2)
        = GetResult.result none (QueueState.mk [("B", [])] [] true) :=
  ⟨(C6_get_message_spec
      (QueueState.mk
        [("A", [AsyncMessage.mk "m1" "S" "A" "c" "data" none])] [] true)
      "A" (some 2) [AsyncMessage.mk "m1" "S" "A" "c" "data" none]
      (by decide)).1
        (AsyncMessage.mk "m1" "S" "A" "c" "data" none) [] rfl,
   (C6_get_message_spec (QueueState.mk [("B", [])] [] true)
      "B" (some 2) [] (by decide)).2.1 rfl (by decide)⟩

/-! Claim C10: a zero timeout blocks like an absent one. -/

/-- C10: for a registered agent with an empty mailbox, `get_message` with
`timeout = 0` blocks — the same behavior as an absent timeout — rather than
returning a not-found result immediately, because `if timeout:` treats `0`
as falsy. -/
theorem C10_zero_timeout_blocks (st : QueueState) (a : String)
    (h : alookup st.queues a = some []) :
    get_message st a (some 0) = GetResult.blocked
    ∧ get_message st a (some 0) = get_message st a none := by
  have h1 : get_message st a (some 0) = GetResult.blocked := by
    unfold get_message
    rw [h]
    simp [pyTruthy]
  have h2 : get_message st a none = GetResult.blocked := by
    unfold get_message
    rw [h]
    simp [pyTruthy]
  exact ⟨h1, h1.trans h2.symm⟩

/-- C10 witness: the theorem applied to registered agent `"A"` with an
empty mailbox. -/
theorem C10_witness :
    get_message (QueueState.mk [("A", [])] [] true) "A" (some 0)
      = GetResult.blocked
    ∧ get_message (QueueState.mk [("A", [])] [] true) "A" (some 0)
      = get_message (QueueState.mk [("A", [])] [] true) "A" none :=
  C10_zero_timeout_blocks (QueueState.mk [("A", [])] [] true) "A" (by decide)

/-! Claim C7: get_all_messages drains in FIFO order. -/

/-- C7: for a registered agent, `get_all_messages` returns exactly the
queued messages in arrival (FIFO) order, leaves the mailbox registered and
empty, and an immediately following second call returns the empty sequence;
the function is total, so it never errors. -/
theorem C7_drain_all (st : QueueState) (a : String)
    (box : List AsyncMessage)
    (hreg : alookup st.queues a = some box) :
    (get_all_messages st a).1 = box
    ∧ alookup (get_all_messages st a).2.queues a = some []
    ∧ (get_all_messages (get_all_messages st a).2 a).1 = [] := by
  have h1 : get_all_messages st a
      = (drainLoop box, { st with queues := aset st.queues a [] }) := by
    unfold get_all_messages
    rw [hreg]
  have h2 : alookup (get_all_messages st a).2.queues a = some [] := by
    rw [h1]
    exact alookup_aset_self _ _ _
  exact ⟨by rw [h1]; exact drainLoop_eq box, h2,
    get_all_messages_empty _ _ h2⟩

/-- C7 witness: draining agent `"A"` holding two messages returns them in
publish order; the repeated call returns the empty sequence. -/
theorem C7_witness :
    (get_all_messages
        (QueueState.mk
          [("A", [AsyncMessage.mk "m1" "S" "A" "c1" "data" none,
                  AsyncMessage.mk "m2" "S" "A" "c2" "data" none])] [] true)
        "A").1
      = [AsyncMessage.mk "m1" "S" "A" "c1" "data" none,
         AsyncMessage.mk "m2" "S" "A" "c2" "data" none]
    ∧ alookup (get_all_messages
        (QueueState.mk
          [("A", [AsyncMessage.mk "m1" "S" "A" "c1" "data" none,
                  AsyncMessage.mk "m2" "S" "A" "c2" "data" none])] [] true)
        "A").2.queues "A" = some []
    ∧ (get_all_messages (get_all_messages
        (QueueState.mk
          [("A", [AsyncMessage.mk "m1" "S" "A" "c1" "data" none,
                  AsyncMessage.mk "m2" "S" "A" "c2" "data" none])] [] true)
        "A").2 "A").1 = [] :=
  C7_drain_all
    (QueueState.mk
      [("A", [AsyncMessage.mk "m1" "S" "A" "c1" "data" none,
              AsyncMessage.mk "m2" "S" "A" "c2" "data" none])] [] true)
    "A"
    [AsyncMessage.mk "m1" "S" "A" "c1" "data" none,
     AsyncMessage.mk "m2" "S" "A" "c2" "data" none]
    (by decide)

/-! Claim C9: shape agreement between AsyncMessage and Message. -/

/-- C9, counterexample: the field `id` of `AsyncMessage` has no
corresponding field in `Message`, so the two message shapes do not agree
field-for-field in both directions as the claim states. -/
theorem C9_counterexample :
    "id" ∈ asyncMessageFields ∧ "id" ∉ messageFields := by
  decide

/-- C9, amended: the agreement is one-sided — every field of `Message` has
a same-named counterpart in `AsyncMessage`, so an `AsyncMessage` can be
consumed as a `Message` by dropping `id` (the round trip through the
synchronous shape restores the original given its `id`), and a `Message`
becomes an `AsyncMessage` only by supplying the `id` that `Message` lacks. -/
theorem C9_message_shape_embeds :
    messageFields.all (fun f => asyncMessageFields.contains f) = true
    ∧ (∀ (msg : Message) (i : String), asyncToMessage (messageToAsync i msg) = msg)
    ∧ (∀ am : AsyncMessage, messageToAsync am.id (asyncToMessage am) = am) := by
  exact ⟨by decide, fun msg i => rfl, fun am => rfl⟩

end Retrievio
